import Mathlib

/-!
Verification of the lease-aware secret cache in
src/python/vault_client/client.py (the current iteration of the client; the
older src/python/vault-client/client.py is superseded by it), via a shallow
embedding of the Python code into Lean.

Modelling conventions:
* Python runtime values are the inductive type PyVal; truthiness follows
  Python (None, False, 0, 0.0, "", [] and empty mappings are falsy).
* Python exceptions are explicit: fallible operations return Except PyErr
  or carry an Option PyErr alongside the state at the point the exception
  escaped (mutations performed before the raise stay visible, mirroring
  Python's in-place mutation of shared objects).
* datetime.now() values are modelled as a Nat count of seconds.  A Python
  timedelta's .seconds attribute is the remainder of the total elapsed
  seconds modulo 86400 (the day component is discarded), which the
  embedding reproduces as (now - t) % 86400.
* Machine floats: the only float arithmetic in the source is the test
  float(n) > float(d) * (2.0 / 3.0) with integer n and d.  In IEEE double
  arithmetic fl(2.0/3.0) = 2/3 - (1/3) * 2^-53, hence fl(d * fl(2/3)) agrees
  with the exact rational 2*d/3 after rounding (ties round to the integer
  itself) for all magnitudes a lease can take, so the comparison is embedded
  exactly as the integer comparison 3*n > 2*d (stated over ℚ to also cover
  float-valued durations, for which the model idealises the arithmetic as
  exact).
-/

namespace VaultClient

/-- Python runtime values as they occur in this client: JSON documents,
scalars, and None. -/
inductive PyVal where
  | none
  | bool (b : Bool)
  | int (n : Int)
  | float (q : ℚ)
  | str (s : String)
  | list (xs : List PyVal)
  | dict (kvs : List (String × PyVal))

/-- Python exceptions that the modelled code can raise. -/
inductive PyErr where
  | attributeError
  | indexError
  | typeError
  | valueError (msg : String)
  | runtimeError (msg : String)
  | permissionError
deriving DecidableEq

/-- Python truthiness. -/
def pyTruthy : PyVal → Bool
  | .none => false
  | .bool b => b
  | .int n => n != 0
  | .float q => decide (q ≠ 0)
  | .str s => s ≠ ""
  | .list xs => !xs.isEmpty
  | .dict kvs => !kvs.isEmpty

/-- obj.get(key, None): defined for mappings only; any other receiver has no
get attribute and raises AttributeError. -/
def PyVal.get : PyVal → String → Except PyErr PyVal
  | .dict kvs, k => .ok ((kvs.lookup k).getD .none)
  | _, _ => .error .attributeError

/-- dotted_get on an already-split path (client.py lines 71-77).
item = obj.get(path[0], None); if item and len(path) > 1: recurse; return item.
An empty path indexes path[0] out of range. -/
def dotted_get : List String → PyVal → Except PyErr PyVal
  | [], _ => .error .indexError
  | [k], obj => obj.get k
  | k :: k₂ :: rest, obj =>
    match obj.get k with
    | .error e => .error e
    | .ok item => if pyTruthy item then dotted_get (k₂ :: rest) item else .ok item

/-- Python's str.split(".") on the character list, splitting at every dot
(adjacent dots yield empty segments; the result is never empty). -/
def splitDotChars : List Char → List Char → List String
  | [], acc => [String.mk acc.reverse]
  | c :: cs, acc =>
    if c = '.' then String.mk acc.reverse :: splitDotChars cs []
    else splitDotChars cs (c :: acc)

/-- path.split(".") for a string path. -/
def splitDot (s : String) : List String := splitDotChars s.data []

/-- dotted_get applied to a dot-separated string path (the isinstance(path,
str) branch splits on "."). -/
def dotted_getS (path : String) (obj : PyVal) : Except PyErr PyVal :=
  dotted_get (splitDot path) obj

/-- The transport's answer to one request: an HTTP response (status code plus
the document that response.json() would produce, or a parse failure), or an
exception inside requests itself. -/
inductive HttpResp where
  | answered (status : Nat) (body : Except Unit PyVal)
  | transportError

/-- The body of http_request's try block after the response arrives
(client.py lines 40-65): the status-code ladder.  A 403 raises
PermissionError; 404/307/502/3xx-4xx/5xx return None; otherwise the parsed
body is returned (response.json() may itself raise). -/
def httpStatusDispatch (status : Nat) (body : Except Unit PyVal) : Except PyErr PyVal :=
  if status = 404 then .ok .none
  else if status = 403 then .error .permissionError
  else if status = 307 then .ok .none
  else if status = 502 then .ok .none
  else if 300 ≤ status ∧ status < 500 then .ok .none
  else if 500 ≤ status then .ok .none
  else
    match body with
    | .ok v => .ok v
    | .error _ => .error (.valueError "JSONDecodeError")

/-- http_request (client.py lines 25-68).  The whole body, including the
explicit raise PermissionError, sits inside try/except Exception: the except
clause logs and returns None, so every exception raised inside the try block
is converted to None. -/
def http_request (r : HttpResp) : PyVal :=
  match r with
  | .transportError => .none
  | .answered status body =>
    match httpStatusDispatch status body with
    | .ok v => v
    | .error _ => .none

/-- C1: the status ladder does raise PermissionError for a 403, but
http_request's own except-Exception clause catches it and returns None, so a
403-classified fetch yields exactly the same empty (None) outcome as a
404-classified fetch; no permission error reaches the caller. -/
theorem c1_403_swallowed :
    httpStatusDispatch 403 (.ok (.dict [])) = .error .permissionError
    ∧ http_request (.answered 403 (.ok (.dict []))) = PyVal.none
    ∧ http_request (.answered 404 (.ok (.dict []))) = PyVal.none :=
  ⟨rfl, rfl, rfl⟩

/-- Python numeric interpretation used by order comparisons (int >= x,
x > 0) and by float() applied to a value that already passed such a
comparison: int, bool and float are numeric; anything else raises
TypeError. -/
def pyNumQ : PyVal → Except PyErr ℚ
  | .int n => .ok (n : ℚ)
  | .bool b => .ok (if b then 1 else 0)
  | .float q => .ok q
  | _ => .error .typeError

/-- Python's x > 0 for the token lease duration. -/
def pyGtZero (v : PyVal) : Except PyErr Bool := do
  let q ← pyNumQ v
  pure (decide (0 < q))

/-- The comparison seconds >= lease_duration, with the duration as the exact
rational d: equivalent to d ≤ s, written on the numerator and denominator
(the denominator is positive) so that concrete instances evaluate inside the
kernel. -/
def cmpGe (s : Nat) (d : ℚ) : Bool :=
  decide (d.num ≤ (s : Int) * (d.den : Int))

/-- The comparison float(seconds) > float(duration) * (2.0 / 3.0), embedded
as the exact 2*d < 3*s (see the float discussion in the header), again
cross-multiplied by the positive denominator of d. -/
def cmpTwoThirds (s : Nat) (d : ℚ) : Bool :=
  decide (2 * d.num < 3 * ((s : Int) * (d.den : Int)))

/-- Decimal digit accumulation for int(str). -/
def parseDigits : List Char → Nat → Option Nat
  | [], acc => some acc
  | c :: cs, acc =>
    if c.isDigit then parseDigits cs (acc * 10 + (c.toNat - '0'.toNat))
    else Option.none

/-- Python's int(str): an optional sign followed by at least one decimal
digit (surrounding whitespace, underscores and other bases are not needed by
any value this client handles). -/
def pyIntOfString (s : String) : Option Int :=
  match s.data with
  | [] => Option.none
  | '-' :: [] => Option.none
  | '-' :: c :: cs => (parseDigits (c :: cs) 0).map (fun n => -(n : Int))
  | '+' :: [] => Option.none
  | '+' :: c :: cs => (parseDigits (c :: cs) 0).map (fun n => (n : Int))
  | cs => (parseDigits cs 0).map (fun n => (n : Int))

/-- Python's int(x) builtin as used for the kv-v2 ttl override: ints pass
through, bools become 0/1, floats truncate toward zero, strings must spell an
integer literal (otherwise ValueError), everything else raises TypeError. -/
def pyIntFn : PyVal → Except PyErr Int
  | .int n => .ok n
  | .bool b => .ok (if b then 1 else 0)
  | .float q => .ok (q.num.tdiv (q.den : Int))
  | .str s =>
    match pyIntOfString s with
    | some n => .ok n
    | Option.none => .error (.valueError "invalid literal for int() with base 10")
  | _ => .error .typeError

/-- The VaultSecret dataclass (client.py lines 354-363).  Fields that the
source assigns raw response values to (lease_id, lease_duration, renewable)
are kept as PyVal; leased and update_lock are only ever assigned the literals
True and False. -/
structure VaultSecret where
  path : String
  value : PyVal := .none
  lease_id : PyVal := .none
  lease_time : Option Nat := Option.none
  lease_duration : PyVal := .int 0
  leased : Bool := false
  renewable : PyVal := .bool false
  update_lock : Bool := false

/-- A fresh entry, VaultClient.VaultSecret(path=path). -/
def mkSecret (p : String) : VaultSecret := { path := p }

/-- The mutable state of a VaultClient instance.  The __secrets dict is a map
from path to entry. -/
structure ClientState where
  vault_addr : String
  vault_token : PyVal
  vault_namespace : String := ""
  vault_accessor : PyVal := .none
  auth_method : String := ""
  auth_path : String := ""
  auth_role : String := ""
  vault_policies : PyVal := .none
  vault_token_lease_time : Option Nat := Option.none
  vault_token_lease_duration : PyVal := .int 0
  authenticated : Bool := false
  secrets : String → Option VaultSecret
  default_kvv2_ttl : Int := 300

/-- self.__secrets[p] = v. -/
def setSec (m : String → Option VaultSecret) (p : String) (v : VaultSecret) :
    String → Option VaultSecret :=
  fun q => if q = p then some v else m q

/-- __get_secret (client.py lines 320-344) given the value http_get produced
for GET {addr}/v1{path} (resp; None when the transport returned None).
Returns the entry at exit together with the exception that escaped, if any;
mutations performed before a raise remain visible because the entry object is
shared by reference with the caller.  Field order follows the source:
lease_time/value/leased first, then renewable, lease_duration (with the
configured default when the reported one is falsy), the data.data.ttl
override through int(), and lease_id last. -/
def getSecret (dv : Int) (sec : VaultSecret) (resp : PyVal) (now : Nat) :
    VaultSecret × Option PyErr :=
  if pyTruthy resp then
    let s₁ : VaultSecret :=
      { sec with lease_time := some now, value := resp, leased := true }
    match dotted_getS "renewable" resp with
    | .error e => (s₁, some e)
    | .ok rv =>
      let s₂ := if pyTruthy rv then { s₁ with renewable := rv } else s₁
      match dotted_getS "lease_duration" resp with
      | .error e => (s₂, some e)
      | .ok ld =>
        let s₃ := if pyTruthy ld then { s₂ with lease_duration := ld }
                  else { s₂ with lease_duration := .int dv }
        match dotted_getS "data.data.ttl" resp with
        | .error e => (s₃, some e)
        | .ok ttl =>
          if pyTruthy ttl then
            match pyIntFn ttl with
            | .error e => (s₃, some e)
            | .ok n =>
              let s₄ := { s₃ with lease_duration := .int n }
              match dotted_getS "lease_id" resp with
              | .error e => (s₄, some e)
              | .ok lid =>
                (if pyTruthy lid then { s₄ with lease_id := lid } else s₄,
                 Option.none)
          else
            match dotted_getS "lease_id" resp with
            | .error e => (s₃, some e)
            | .ok lid =>
              (if pyTruthy lid then { s₃ with lease_id := lid } else s₃,
               Option.none)
  else (sec, Option.none)

/-- VaultSecretUpdateThread.run (client.py lines 373-378) given the value the
fetch inside __get_secret produced.  On a normal exit the refetched entry is
stored and its update_lock cleared; when __get_secret raises, the map
assignment and the flag clear are skipped, but mutations __get_secret already
made are visible because the thread's secret is the same object the map
holds, so the exit state stores the partially updated entry with its lock
still set. -/
def updateThreadRun (st : ClientState) (sec : VaultSecret) (resp : PyVal) (now : Nat) :
    ClientState × Option PyErr :=
  match getSecret st.default_kvv2_ttl sec resp now with
  | (sec', some e) =>
    ({ st with secrets := setSec st.secrets sec.path sec' }, some e)
  | (sec', Option.none) =>
    ({ st with secrets := setSec st.secrets sec.path ({ sec' with update_lock := false }) },
     Option.none)

/-- VaultSecretRenewThread.run (client.py lines 388-409) given the value
http_post produced for POST /v1/sys/leases/renew.  When the response is
truthy and carries a truthy lease_id, the lease metadata (lease_time,
lease_id, renewable, lease_duration, in source order) is overwritten from the
response; then update_lock is cleared unconditionally and the entry stored.
A truthy non-mapping response makes dotted_get raise AttributeError while
evaluating the condition, killing the thread before the flag clear; the exit
state reflects whatever was mutated before the raise (here: nothing). -/
def renewThreadRun (st : ClientState) (sec : VaultSecret) (resp : PyVal) (now : Nat) :
    ClientState × Option PyErr :=
  let finishWith : VaultSecret → ClientState × Option PyErr := fun s =>
    ({ st with secrets := setSec st.secrets sec.path ({ s with update_lock := false }) },
     Option.none)
  if pyTruthy resp then
    match dotted_getS "lease_id" resp with
    | .error e => ({ st with secrets := setSec st.secrets sec.path sec }, some e)
    | .ok lid =>
      if pyTruthy lid then
        match dotted_getS "renewable" resp with
        | .error e =>
          let s₁ := { sec with lease_time := some now, lease_id := lid }
          ({ st with secrets := setSec st.secrets sec.path s₁ }, some e)
        | .ok rv =>
          match dotted_getS "lease_duration" resp with
          | .error e =>
            let s₂ :=
              { sec with lease_time := some now, lease_id := lid, renewable := rv }
            ({ st with secrets := setSec st.secrets sec.path s₂ }, some e)
          | .ok ldv =>
            let s₃ :=
              { sec with
                lease_time := some now, lease_id := lid, renewable := rv,
                lease_duration := ldv }
            finishWith s₃
      else finishWith sec
  else finishWith sec

/-- Synchronous network calls a read can perform. -/
inductive NetCall where
  | metadata
  | login
  | fetch (path : String)
deriving DecidableEq

/-- Background threads a read can launch, carrying the entry object handed to
the thread. -/
inductive BgTask where
  | renew (sec : VaultSecret)
  | update (sec : VaultSecret)

/-- login_jwt (client.py lines 232-252) given the value http_post produced
for the login endpoint.  Returns the state at exit, the exception that
escaped (if any), and the boolean the function returned.  The guard is
login_result and dotted_get("auth.client_token", login_result): a truthy
non-mapping response makes dotted_get raise.  A truthy token implies the
auth field is a mapping, so the remaining lookups cannot fail; the final
catch-all arm is unreachable and kept only for totality. -/
def login_jwt (st : ClientState) (now : Nat) (resp : PyVal) :
    ClientState × Option PyErr × Bool :=
  if pyTruthy resp then
    match dotted_getS "auth.client_token" resp with
    | .error e => (st, some e, false)
    | .ok tok =>
      if pyTruthy tok then
        match dotted_getS "auth.accessor" resp, dotted_getS "auth.lease_duration" resp,
              dotted_getS "auth.policies" resp with
        | .ok acc, .ok ld, .ok pol =>
          let st' :=
            { st with
              vault_token_lease_time := some now, vault_token := tok,
              vault_accessor := acc, vault_token_lease_duration := ld,
              vault_policies := pol, authenticated := true }
          (st', Option.none, true)
        | _, _, _ => (st, some .attributeError, false)
      else (st, Option.none, false)
  else (st, Option.none, false)

/-- login (client.py lines 192-208) by way of login_gcp (lines 210-230): an
empty auth_path is replaced by auth_method; only the "gcp" method is wired
up, fetching an identity document from the metadata server (modelled as
always succeeding with orc-supplied text, which login_jwt never inspects
beyond posting it) and then performing the JWT login; any other method
leaves result False, and a False result raises RuntimeError. -/
def login (st : ClientState) (now : Nat) (loginResp : PyVal) :
    ClientState × Option PyErr × List NetCall :=
  let st₁ := if st.auth_path = "" then { st with auth_path := st.auth_method } else st
  if st₁.auth_method = "gcp" then
    match login_jwt st₁ now loginResp with
    | (st₂, some e, _) => (st₂, some e, [NetCall.metadata, NetCall.login])
    | (st₂, Option.none, true) => (st₂, Option.none, [NetCall.metadata, NetCall.login])
    | (st₂, Option.none, false) =>
      (st₂, some (.runtimeError "Unable to authenticate to Vault."),
       [NetCall.metadata, NetCall.login])
  else (st₁, some (.runtimeError "Unable to authenticate to Vault."), [])

/-- The token-lease check inside __read_element (client.py lines 266-274):
when the token lease duration is positive and the elapsed seconds (timedelta
.seconds, i.e. modulo one day) exceed 2/3 of it, login is performed again.
Reading an unset lease time raises AttributeError (unreachable in practice:
a positive duration is only ever set together with the timestamp). -/
def tokenStep (st : ClientState) (now : Nat) (loginResp : PyVal) :
    ClientState × Option PyErr × List NetCall :=
  match pyGtZero st.vault_token_lease_duration with
  | .error e => (st, some e, [])
  | .ok true =>
    match st.vault_token_lease_time with
    | Option.none => (st, some .attributeError, [])
    | some t =>
      match pyNumQ st.vault_token_lease_duration with
      | .error e => (st, some e, [])
      | .ok d =>
        let s := (now - t) % 86400
        if cmpTwoThirds s d then login st now loginResp
        else (st, Option.none, [])
  | .ok false => (st, Option.none, [])

/-- Everything one call to __read_element produces: the returned value (or
the exception that escaped), the client state at exit, the synchronous
network calls performed, and the background threads started. -/
structure ReadOut where
  result : Except PyErr PyVal
  state : ClientState
  calls : List NetCall
  tasks : List BgTask

/-- The path normalisation at the top of __read_element (client.py lines
260-261): if path[0] != "/": path = "/" + path.  Only reached on a non-empty
path. -/
def normPath (p : String) : String :=
  if p.data.head? ≠ some '/' then "/" ++ p else p

/-- The tail of __read_element (client.py lines 312-318): a falsy stored
value raises ValueError; otherwise a leased entry is projected through
dotted_get and an unleased one yields None. -/
def finishRead (st : ClientState) (p key : String) (calls : List NetCall)
    (tasks : List BgTask) : ReadOut :=
  match st.secrets p with
  | Option.none => ⟨.error .indexError, st, calls, tasks⟩
  | some sec =>
    if ¬ pyTruthy sec.value then
      ⟨.error (.valueError "Missing secret value after being read."), st, calls, tasks⟩
    else if sec.leased then
      ⟨dotted_getS key sec.value, st, calls, tasks⟩
    else ⟨.ok .none, st, calls, tasks⟩

/-- __read_element (client.py lines 254-318).  loginResp and fetchResp are
the values http_post/http_get would produce for the (re)login and the secret
fetch during this read; all datetime.now() calls during the read share the
timestamp now.  Control flow follows the source: empty path or key returns
None; the path is slash-normalised; an unauthenticated client logs in; a
positive token lease past 2/3 of its duration triggers a re-login; a missing
entry is created; an unleased entry is fetched synchronously; a leased entry
is refetched synchronously when the elapsed seconds (modulo one day) reach
its duration, spawns a single renew/update thread (setting update_lock) when
they exceed 2/3 of it and no thread is in flight, and is served untouched
otherwise. -/
def read_element (st₀ : ClientState) (path key : String) (now : Nat)
    (loginResp fetchResp : PyVal) : ReadOut :=
  if path = "" ∨ key = "" then ⟨.ok .none, st₀, [], []⟩ else
  let p := normPath path
  match (if st₀.authenticated then (st₀, Option.none, []) else login st₀ now loginResp) with
  | (st₁, some e, cs₁) => ⟨.error e, st₁, cs₁, []⟩
  | (st₁, Option.none, cs₁) =>
    match tokenStep st₁ now loginResp with
    | (st₂, some e, cs₂) => ⟨.error e, st₂, cs₁ ++ cs₂, []⟩
    | (st₂, Option.none, cs₂) =>
      let calls₀ := cs₁ ++ cs₂
      let st₃ := if (st₂.secrets p).isSome then st₂
                 else { st₂ with secrets := setSec st₂.secrets p (mkSecret p) }
      match st₃.secrets p with
      | Option.none => ⟨.error .indexError, st₃, calls₀, []⟩
      | some sec =>
        if ¬ sec.leased then
          match getSecret st₃.default_kvv2_ttl sec fetchResp now with
          | (sec', some e) =>
            ⟨.error e, { st₃ with secrets := setSec st₃.secrets p sec' },
             calls₀ ++ [.fetch p], []⟩
          | (sec', Option.none) =>
            finishRead { st₃ with secrets := setSec st₃.secrets p sec' } p key
              (calls₀ ++ [.fetch p]) []
        else
          match sec.lease_time with
          | Option.none =>
            ⟨.error (.valueError "Missing existing secret value when checking lease."),
             st₃, calls₀, []⟩
          | some lt =>
            let s := (now - lt) % 86400
            match pyNumQ sec.lease_duration with
            | .error e => ⟨.error e, st₃, calls₀, []⟩
            | .ok d =>
              if cmpGe s d then
                match getSecret st₃.default_kvv2_ttl sec fetchResp now with
                | (sec', some e) =>
                  ⟨.error e, { st₃ with secrets := setSec st₃.secrets p sec' },
                   calls₀ ++ [.fetch p], []⟩
                | (sec', Option.none) =>
                  finishRead { st₃ with secrets := setSec st₃.secrets p sec' } p key
                    (calls₀ ++ [.fetch p]) []
              else if cmpTwoThirds s d then
                if pyTruthy sec.renewable then
                  if ¬ sec.update_lock then
                    let sec' := { sec with update_lock := true }
                    finishRead { st₃ with secrets := setSec st₃.secrets p sec' } p key
                      calls₀ [.renew sec']
                  else finishRead st₃ p key calls₀ []
                else
                  if ¬ sec.update_lock then
                    let sec' := { sec with update_lock := true }
                    finishRead { st₃ with secrets := setSec st₃.secrets p sec' } p key
                      calls₀ [.update sec']
                  else finishRead st₃ p key calls₀ []
              else finishRead st₃ p key calls₀ []

/-- JSON string escaping as json.dumps performs it for the characters that
occur in this client's documents (quote, backslash, and the common control
characters; the full \uXXXX escape for other control characters is not
needed by any value the claims touch). -/
def jsonEscapeChar (c : Char) : String :=
  if c = '"' then "\\\""
  else if c = '\\' then "\\\\"
  else if c = '\n' then "\\n"
  else if c = '\t' then "\\t"
  else if c = '\r' then "\\r"
  else String.singleton c

def jsonEscape (s : String) : String :=
  s.data.foldl (fun acc c => acc ++ jsonEscapeChar c) ""

mutual

/-- json.dumps(value, default=str) with the default separators (", " and
": ").  Mapping keys keep insertion order, as Python dicts do.  Floats are
rendered as num.0 when integral; the shortest-repr rendering of a
non-integral double is not modelled (no claim serialises one). -/
def jsonDumps : PyVal → String
  | .none => "null"
  | .bool b => if b then "true" else "false"
  | .int n => toString n
  | .float q =>
    if q.den = 1 then toString q.num ++ ".0" else toString q.num ++ "/" ++ toString q.den
  | .str s => "\"" ++ jsonEscape s ++ "\""
  | .list xs => "[" ++ jsonDumpsList xs ++ "]"
  | .dict kvs => "\x7b" ++ jsonDumpsDict kvs ++ "\x7d"

def jsonDumpsList : List PyVal → String
  | [] => ""
  | [x] => jsonDumps x
  | x :: y :: rest => jsonDumps x ++ ", " ++ jsonDumpsList (y :: rest)

def jsonDumpsDict : List (String × PyVal) → String
  | [] => ""
  | [(k, v)] => "\"" ++ jsonEscape k ++ "\": " ++ jsonDumps v
  | (k, v) :: y :: rest =>
    "\"" ++ jsonEscape k ++ "\": " ++ jsonDumps v ++ ", " ++ jsonDumpsDict (y :: rest)

end

/-- Is type(value) in [int, str, float]?  (bool is its own type in Python and
is not in the list.) -/
def isScalarType : PyVal → Bool
  | .int _ => true
  | .str _ => true
  | .float _ => true
  | _ => false

/-- The post-processing in read (client.py lines 183-190): a falsy value
(including int 0, empty strings and None) yields None; truthy ints, strs and
floats are returned as-is; any other truthy value is serialised with
json.dumps. -/
def readPost (v : PyVal) : PyVal :=
  if pyTruthy v then
    if isScalarType v then v else .str (jsonDumps v)
  else .none

/-- read (client.py lines 183-190): __read_element followed by readPost; an
exception from __read_element propagates. -/
def read (st : ClientState) (path key : String) (now : Nat)
    (loginResp fetchResp : PyVal) : ReadOut :=
  let o := read_element st path key now loginResp fetchResp
  match o.result with
  | .error e => { o with result := .error e }
  | .ok v => { o with result := .ok (readPost v) }

/-- Spec-side path resolution, modelled from the spec's words: traverse a
dot-separated field path through the document, returning nothing if any
segment is absent (descending only through mappings). -/
def specResolve : List String → PyVal → Option PyVal
  | [], obj => some obj
  | k :: rest, obj =>
    match obj with
    | .dict kvs =>
      match kvs.lookup k with
      | some v => specResolve rest v
      | Option.none => Option.none
    | _ => Option.none

/-- The traversals on which dotted_get agrees with the spec-side resolution:
the document is a mapping, and every intermediate value the path descends
into is a truthy mapping chain (a truthy non-mapping intermediate makes
dotted_get raise AttributeError, and a falsy intermediate is returned as-is
instead of being descended into). -/
def cleanPath : List String → PyVal → Bool
  | [], _ => true
  | k :: rest, obj =>
    match obj with
    | .dict kvs =>
      match rest with
      | [] => true
      | _ :: _ =>
        match kvs.lookup k with
        | some v => pyTruthy v && cleanPath rest v
        | Option.none => true
    | _ => false

/-- C5, counterexample: projecting the path a.b over the document
(a maps to 7) raises AttributeError (7 has no get attribute), refuting
"yields empty -- never an error -- when any segment is absent". -/
theorem c5_cex :
    dotted_getS "a.b" (.dict [("a", .int 7)]) = .error .attributeError := rfl

/-- C5, amended: on clean traversals (every intermediate a truthy mapping),
dotted_get returns exactly the spec-side resolution -- the stored value when
every segment is present, and empty (None) without error when a segment is
absent from its mapping parent.  Descending into a truthy non-mapping raises
AttributeError, and a falsy intermediate is returned as-is. -/
theorem c5_amended (p : List String) (obj : PyVal) (hne : p ≠ [])
    (hc : cleanPath p obj = true) :
    dotted_get p obj = .ok ((specResolve p obj).getD .none) := by
  induction p generalizing obj with
  | nil => exact absurd rfl hne
  | cons k rest ih =>
    cases obj with
    | dict kvs =>
      cases rest with
      | nil =>
        cases h : kvs.lookup k <;>
          simp [dotted_get, PyVal.get, specResolve, h]
      | cons k₂ rest' =>
        cases h : kvs.lookup k with
        | none =>
          simp [dotted_get, PyVal.get, specResolve, h, pyTruthy]
        | some v =>
          simp only [cleanPath, h, Bool.and_eq_true] at hc
          simp only [dotted_get, PyVal.get, specResolve, h, Option.getD_some, hc.1,
            if_true]
          exact ih v (by simp) hc.2
    | none => simp [cleanPath] at hc
    | bool b => simp [cleanPath] at hc
    | int n => simp [cleanPath] at hc
    | float q => simp [cleanPath] at hc
    | str s => simp [cleanPath] at hc
    | list xs => simp [cleanPath] at hc

/-- The round-trip document of the spec's scenario. -/
def c5doc : PyVal := .dict [("a", .dict [("b", .dict [("c", .int 7)])])]

/-- C5, witness: projecting a.b.c out of the round-trip document yields 7. -/
theorem c5_witness :
    dotted_get (splitDot "a.b.c") c5doc = .ok (.int 7) :=
  (c5_amended (splitDot "a.b.c") c5doc (by decide) (by rfl)).trans (by rfl)

/-- Helper: once a fetch response is truthy, __get_secret stores it as the
entry's value and marks the entry leased before anything can raise, so these
two fields are updated on every exit path, exceptional or not. -/
theorem getSecret_value (dv : Int) (sec : VaultSecret) (r : PyVal) (now : Nat)
    (h : pyTruthy r = true) :
    (getSecret dv sec r now).1.value = r ∧ (getSecret dv sec r now).1.leased = true := by
  simp only [getSecret, h, if_true]
  repeat' split
  all_goals simp

/-- A fetch response reporting lease_duration 0 together with a kv document
carrying no ttl. -/
def c9resp : PyVal :=
  .dict [("lease_duration", .int 0), ("data", .dict [("data", .dict [("foo", .str "x")])])]

/-- C9, counterexample: the response carries lease_duration = 0 (present) and
no ttl, yet the stored lease duration is the configured default 300, not the
reported 0 -- the source keeps a reported duration only when it is truthy,
not merely present. -/
theorem c9_cex :
    dotted_getS "lease_duration" c9resp = .ok (.int 0)
    ∧ (getSecret 300 (mkSecret "/p") c9resp 5).1.lease_duration = .int 300
    ∧ PyVal.int 300 ≠ PyVal.int 0 :=
  ⟨rfl, rfl, by simp⟩

/-- C9, amended: after a successful, exception-free fetch the stored lease
duration is int(ttl) when data.data.ttl is truthy (so a truthy numeric
string also supersedes), else the reported lease_duration when that is
truthy, else the configured default -- presence alone is not enough, a
falsy (zero) value falls through to the next source. -/
theorem c9_amended (dv : Int) (sec : VaultSecret) (r : PyVal) (now : Nat)
    (ld ttl : PyVal)
    (htr : pyTruthy r = true)
    (hok : (getSecret dv sec r now).2 = Option.none)
    (hld : dotted_getS "lease_duration" r = .ok ld)
    (httl : dotted_getS "data.data.ttl" r = .ok ttl) :
    (pyTruthy ttl = true → ∃ n, pyIntFn ttl = .ok n ∧
        (getSecret dv sec r now).1.lease_duration = .int n)
    ∧ (pyTruthy ttl = false → pyTruthy ld = true →
        (getSecret dv sec r now).1.lease_duration = ld)
    ∧ (pyTruthy ttl = false → pyTruthy ld = false →
        (getSecret dv sec r now).1.lease_duration = .int dv) := by
  simp only [getSecret, htr, if_true] at hok ⊢
  cases hrv : dotted_getS "renewable" r with
  | error e => simp [hrv] at hok
  | ok rv =>
    simp only [hrv] at hok ⊢
    rw [hld] at hok ⊢
    rw [httl] at hok ⊢
    refine ⟨?_, ?_, ?_⟩
    · intro h1
      simp only [h1, if_true] at hok ⊢
      cases hn : pyIntFn ttl with
      | error e => simp [hn] at hok
      | ok n =>
        refine ⟨n, rfl, ?_⟩
        simp only [hn] at hok ⊢
        cases hlid : dotted_getS "lease_id" r with
        | error e => simp [hlid] at hok
        | ok lid =>
          simp only [hlid]
          repeat' split
          all_goals rfl
    · intro h1 h2
      simp only [h1, h2, if_true, if_false, Bool.false_eq_true] at hok ⊢
      cases hlid : dotted_getS "lease_id" r with
      | error e => simp [hlid] at hok
      | ok lid =>
        simp only [hlid]
        repeat' split
        all_goals rfl
    · intro h1 h2
      simp only [h1, h2, if_true, if_false, Bool.false_eq_true] at hok ⊢
      cases hlid : dotted_getS "lease_id" r with
      | error e => simp [hlid] at hok
      | ok lid =>
        simp only [hlid]
        repeat' split
        all_goals rfl

/-- A kv-v2 style response whose document carries a string ttl of "5", as the
repository's own test writes. -/
def c9resp₂ : PyVal :=
  .dict [("lease_duration", .int 0),
         ("data", .dict [("data", .dict [("foo", .str "x"), ("ttl", .str "5")])])]

/-- C9, witness: with a truthy string ttl of "5" present, the stored lease
duration is int("5") = 5, superseding both the reported duration and the
default. -/
theorem c9_witness :
    ∃ n, pyIntFn (.str "5") = .ok n
    ∧ (getSecret 300 (mkSecret "/p") c9resp₂ 5).1.lease_duration = .int n := by
  have h := (c9_amended 300 (mkSecret "/p") c9resp₂ 5 (.int 0) (.str "5")
    (by rfl) (by rfl) (by rfl) (by rfl)).1 (by rfl)
  exact h

/-- A leased, fresh entry whose document stores the integer 0 under k. -/
def zeroSec : VaultSecret :=
  { path := "/p", value := .dict [("k", .int 0)], lease_time := some 0,
    lease_duration := .int 300, leased := true }

/-- An authenticated client holding only zeroSec. -/
def zeroState : ClientState :=
  { vault_addr := "http://vault", vault_token := .str "t", authenticated := true,
    secrets := setSec (fun _ => Option.none) "/p" zeroSec }

/-- C6, counterexample: a successful fresh read projects the scalar integer 0
(read_element yields 0), yet read returns None rather than the scalar as-is,
because read's guard is truthiness (if value:), not presence. -/
theorem c6_cex :
    (read_element zeroState "/p" "k" 10 .none .none).result = .ok (.int 0)
    ∧ (read zeroState "/p" "k" 10 .none .none).result = .ok .none
    ∧ PyVal.int 0 ≠ PyVal.none :=
  ⟨rfl, rfl, by simp⟩

/-- C6, amended: read applies readPost to whatever __read_element returned:
truthy scalars (non-zero ints and floats, non-empty strings) are returned
as-is, truthy structured values are serialised with json.dumps, and every
falsy projected value (0, 0.0, "", empty containers, False, None) becomes
None. -/
theorem c6_amended (st : ClientState) (p key : String) (now : Nat)
    (lr fr v : PyVal)
    (h : (read_element st p key now lr fr).result = .ok v) :
    (read st p key now lr fr).result = .ok (readPost v)
    ∧ (pyTruthy v = true → isScalarType v = true → readPost v = v)
    ∧ (pyTruthy v = true → isScalarType v = false → readPost v = .str (jsonDumps v))
    ∧ (pyTruthy v = false → readPost v = .none) := by
  refine ⟨?_, ?_, ?_, ?_⟩
  · simp only [read, h]
  · intro h1 h2; simp [readPost, h1, h2]
  · intro h1 h2; simp [readPost, h1, h2]
  · intro h1; simp [readPost, h1]

/-- A leased, fresh entry whose document stores a nested mapping under k. -/
def structSec : VaultSecret :=
  { path := "/p", value := .dict [("k", .dict [("a", .str "b")])], lease_time := some 0,
    lease_duration := .int 300, leased := true }

/-- An authenticated client holding only structSec. -/
def structState : ClientState :=
  { vault_addr := "http://vault", vault_token := .str "t", authenticated := true,
    secrets := setSec (fun _ => Option.none) "/p" structSec }

/-- C6, witness: reading a structured (nested mapping) field returns its
json.dumps serialisation wrapped as a string. -/
theorem c6_witness :
    (read structState "/p" "k" 10 .none .none).result =
      .ok (.str (jsonDumps (.dict [("a", .str "b")])))
    ∧ isScalarType (.dict [("a", .str "b")]) = false
    ∧ pyTruthy (.dict [("a", .str "b")]) = true := by
  have h := c6_amended structState "/p" "k" 10 .none .none (.dict [("a", .str "b")]) rfl
  refine ⟨?_, rfl, rfl⟩
  rw [h.1, h.2.2.1 rfl rfl]

/-- Single-segment lookups on a mapping never raise. -/
theorem dgetS_lease_id (kvs : List (String × PyVal)) :
    dotted_getS "lease_id" (.dict kvs) = .ok ((kvs.lookup "lease_id").getD .none) := rfl

theorem dgetS_renewable (kvs : List (String × PyVal)) :
    dotted_getS "renewable" (.dict kvs) = .ok ((kvs.lookup "renewable").getD .none) := rfl

theorem dgetS_lease_duration (kvs : List (String × PyVal)) :
    dotted_getS "lease_duration" (.dict kvs) =
      .ok ((kvs.lookup "lease_duration").getD .none) := rfl

/-- The renewal response is accepted exactly when it is truthy and carries a
truthy lease_id (the if-condition of VaultSecretRenewThread.run). -/
def renewOk (resp : PyVal) : Bool :=
  pyTruthy resp &&
    (match dotted_getS "lease_id" resp with
     | .ok lid => pyTruthy lid
     | .error _ => false)

/-- C7: in every case the renew thread leaves the entry's value untouched;
when the response is accepted the four pieces of lease metadata are replaced
by exactly what the response reports (and the timestamp by now), and when it
is not -- absent, falsy, without a truthy lease_id, or aborting the thread
with an exception -- all four are left untouched. -/
theorem c7_renew_frame (st : ClientState) (sec : VaultSecret) (resp : PyVal) (now : Nat) :
    ∃ e, (renewThreadRun st sec resp now).1.secrets sec.path = some e
    ∧ e.value = sec.value
    ∧ (renewOk resp = false →
        e.lease_time = sec.lease_time ∧ e.lease_id = sec.lease_id
        ∧ e.lease_duration = sec.lease_duration ∧ e.renewable = sec.renewable)
    ∧ (renewOk resp = true →
        e.lease_time = some now
        ∧ dotted_getS "lease_id" resp = .ok e.lease_id
        ∧ dotted_getS "renewable" resp = .ok e.renewable
        ∧ dotted_getS "lease_duration" resp = .ok e.lease_duration) := by
  by_cases hT : pyTruthy resp = true
  case neg =>
    have hT' : pyTruthy resp = false := by simpa using hT
    refine ⟨{ sec with update_lock := false }, ?_, rfl,
      fun _ => ⟨rfl, rfl, rfl, rfl⟩, ?_⟩
    · simp [renewThreadRun, hT', setSec]
    · intro hok; simp [renewOk, hT'] at hok
  case pos =>
    cases resp with
    | dict kvs =>
      by_cases hL : pyTruthy ((kvs.lookup "lease_id").getD .none) = true
      · refine ⟨{ sec with
                  lease_time := some now,
                  lease_id := (kvs.lookup "lease_id").getD .none,
                  renewable := (kvs.lookup "renewable").getD .none,
                  lease_duration := (kvs.lookup "lease_duration").getD .none,
                  update_lock := false }, ?_, rfl, ?_, ?_⟩
        · simp [renewThreadRun, hT, hL, dgetS_lease_id, dgetS_renewable,
            dgetS_lease_duration, setSec]
        · intro hok
          simp [renewOk, hT, dgetS_lease_id, hL] at hok
        · intro _
          exact ⟨rfl, dgetS_lease_id kvs, dgetS_renewable kvs, dgetS_lease_duration kvs⟩
      · have hL' : pyTruthy ((kvs.lookup "lease_id").getD .none) = false := by
          simpa using hL
        refine ⟨{ sec with update_lock := false }, ?_, rfl,
          fun _ => ⟨rfl, rfl, rfl, rfl⟩, ?_⟩
        · simp [renewThreadRun, hT, hL', dgetS_lease_id, setSec]
        · intro hok; simp [renewOk, hT, dgetS_lease_id, hL'] at hok
    | none => simp [pyTruthy] at hT
    | bool b =>
      have hlid : dotted_getS "lease_id" (PyVal.bool b) = .error .attributeError := rfl
      refine ⟨sec, ?_, rfl, fun _ => ⟨rfl, rfl, rfl, rfl⟩, ?_⟩
      · simp [renewThreadRun, hT, hlid, setSec]
      · intro hok; simp [renewOk, hT, hlid] at hok
    | int n =>
      have hlid : dotted_getS "lease_id" (PyVal.int n) = .error .attributeError := rfl
      refine ⟨sec, ?_, rfl, fun _ => ⟨rfl, rfl, rfl, rfl⟩, ?_⟩
      · simp [renewThreadRun, hT, hlid, setSec]
      · intro hok; simp [renewOk, hT, hlid] at hok
    | float q =>
      have hlid : dotted_getS "lease_id" (PyVal.float q) = .error .attributeError := rfl
      refine ⟨sec, ?_, rfl, fun _ => ⟨rfl, rfl, rfl, rfl⟩, ?_⟩
      · simp [renewThreadRun, hT, hlid, setSec]
      · intro hok; simp [renewOk, hT, hlid] at hok
    | str s =>
      have hlid : dotted_getS "lease_id" (PyVal.str s) = .error .attributeError := rfl
      refine ⟨sec, ?_, rfl, fun _ => ⟨rfl, rfl, rfl, rfl⟩, ?_⟩
      · simp [renewThreadRun, hT, hlid, setSec]
      · intro hok; simp [renewOk, hT, hlid] at hok
    | list xs =>
      have hlid : dotted_getS "lease_id" (PyVal.list xs) = .error .attributeError := rfl
      refine ⟨sec, ?_, rfl, fun _ => ⟨rfl, rfl, rfl, rfl⟩, ?_⟩
      · simp [renewThreadRun, hT, hlid, setSec]
      · intro hok; simp [renewOk, hT, hlid] at hok

/-- A renewal response whose lease_id lookup succeeds with truthy values
across the board. -/
def c7resp : PyVal :=
  .dict [("lease_id", .str "lid2"), ("renewable", .bool true),
         ("lease_duration", .int 60)]

def c7Sec : VaultSecret :=
  { path := "/p", value := .dict [("k", .str "v")], lease_id := .str "lid1",
    lease_time := some 0, lease_duration := .int 30, leased := true,
    renewable := .bool true, update_lock := true }

def c7St : ClientState :=
  { vault_addr := "http://vault", vault_token := .str "t", authenticated := true,
    secrets := setSec (fun _ => Option.none) "/p" c7Sec }

/-- C7, witness: a concrete successful renewal replaces the metadata from the
response and keeps the value. -/
theorem c7_witness :
    ∃ e, (renewThreadRun c7St c7Sec c7resp 9).1.secrets "/p" = some e
    ∧ e.value = c7Sec.value ∧ e.lease_time = some 9
    ∧ dotted_getS "lease_id" c7resp = .ok e.lease_id := by
  obtain ⟨e, h1, h2, _, h4⟩ := c7_renew_frame c7St c7Sec c7resp 9
  obtain ⟨h5, h6, -, -⟩ := h4 (by rfl)
  exact ⟨e, h1, h2, h5, h6⟩

/-- A near-expiry entry whose refresh thread is in flight. -/
def c8Sec : VaultSecret :=
  { path := "/p", value := .dict [("k", .str "v")], lease_id := .str "lid1",
    lease_time := some 0, lease_duration := .int 9, leased := true,
    renewable := .bool true, update_lock := true }

def c8St : ClientState :=
  { vault_addr := "http://vault", vault_token := .str "t", authenticated := true,
    secrets := setSec (fun _ => Option.none) "/p" c8Sec }

/-- C8, counterexample: a truthy non-mapping renewal response (the JSON
document [1]) makes dotted_get raise AttributeError inside the renew
thread's if-condition, so the thread dies on that exit path with the entry's
update_lock still set -- it is not cleared on every exit path. -/
theorem c8_cex :
    (renewThreadRun c8St c8Sec (.list [.int 1]) 0).2 = some .attributeError
    ∧ (renewThreadRun c8St c8Sec (.list [.int 1]) 0).1.secrets "/p" = some c8Sec
    ∧ c8Sec.update_lock = true :=
  ⟨rfl, rfl, rfl⟩

/-- C8, amended: on every exit path on which no exception escapes (every
response that is absent, falsy, or a mapping -- and, for the refetch thread,
whose ttl processing does not raise), both threads store the entry back with
its in-flight flag cleared; only an exception-aborted run leaves the flag
set. -/
theorem c8_amended (st : ClientState) (sec : VaultSecret) (resp : PyVal) (now : Nat) :
    ((renewThreadRun st sec resp now).2 = Option.none →
      ∃ e, (renewThreadRun st sec resp now).1.secrets sec.path = some e
      ∧ e.update_lock = false)
    ∧ ((updateThreadRun st sec resp now).2 = Option.none →
      ∃ e, (updateThreadRun st sec resp now).1.secrets sec.path = some e
      ∧ e.update_lock = false) := by
  constructor
  · unfold renewThreadRun
    repeat' split
    all_goals intro h
    all_goals first
      | exact Option.noConfusion h
      | exact ⟨_, by simp [setSec]; rfl, rfl⟩
  · unfold updateThreadRun
    repeat' split
    all_goals intro h
    all_goals first
      | exact Option.noConfusion h
      | exact ⟨_, by simp [setSec]; rfl, rfl⟩

/-- C8, witness: a failed renewal (transport returned None) and a failed
refetch both clear the in-flight flag. -/
theorem c8_witness :
    (∃ e, (renewThreadRun c8St c8Sec .none 3).1.secrets "/p" = some e
      ∧ e.update_lock = false)
    ∧ (∃ e, (updateThreadRun c8St c8Sec .none 3).1.secrets "/p" = some e
      ∧ e.update_lock = false) :=
  ⟨(c8_amended c8St c8Sec .none 3).1 rfl, (c8_amended c8St c8Sec .none 3).2 rfl⟩

/-- C4: a read of a leased entry while the true elapsed time is below 2/3 of
the (integer) lease duration makes no network call, launches no background
task, leaves the whole client state (entry included) unchanged, and returns
the projection of the cached document -- given that the client is
authenticated and the token-lease check does not itself fire. -/
theorem c4_fresh_frame (st : ClientState) (p key : String) (now lt : Nat)
    (lr fr : PyVal) (sec : VaultSecret) (d : Int)
    (hp : p.data.head? = some '/') (hk : key ≠ "")
    (hauth : st.authenticated = true)
    (htok : tokenStep st now lr = (st, Option.none, []))
    (hsec : st.secrets p = some sec)
    (hleased : sec.leased = true) (hlt : sec.lease_time = some lt)
    (hd : sec.lease_duration = .int d)
    (hval : pyTruthy sec.value = true)
    (_hle : lt ≤ now)
    (hfresh : 3 * ((now - lt : Nat) : Int) < 2 * d) :
    read_element st p key now lr fr = ⟨dotted_getS key sec.value, st, [], []⟩ := by
  have hpne : p ≠ "" := by
    intro h; subst h; simp at hp
  have hmodle : ((now - lt) % 86400 : Nat) ≤ now - lt := Nat.mod_le _ _
  have hcge : cmpGe ((now - lt) % 86400) ((d : Int) : ℚ) = false := by
    simp only [cmpGe, Rat.num_intCast, Rat.den_intCast, Nat.cast_one, mul_one,
      decide_eq_false_iff_not, not_le]
    omega
  have hc23 : cmpTwoThirds ((now - lt) % 86400) ((d : Int) : ℚ) = false := by
    simp only [cmpTwoThirds, Rat.num_intCast, Rat.den_intCast, Nat.cast_one, mul_one,
      decide_eq_false_iff_not, not_lt]
    omega
  simp only [read_element, hpne, hk, or_self, if_false, normPath, hp, hauth, if_true,
    htok, hsec, Option.isSome_some, hleased, hlt, hd, hval, pyNumQ, hcge, hc23,
    Bool.not_true, List.nil_append, List.append_nil, finishRead]
  simp [finishRead, hsec, hval, hleased, hlt, hd, pyNumQ, hcge, hc23, setSec]

/-- A fresh, leased entry far from expiry. -/
def c4Sec : VaultSecret :=
  { path := "/p", value := .dict [("k", .str "v")], lease_time := some 0,
    lease_duration := .int 300, leased := true }

def c4St : ClientState :=
  { vault_addr := "http://vault", vault_token := .str "t", authenticated := true,
    secrets := setSec (fun _ => Option.none) "/p" c4Sec }

/-- C4, witness: a concrete fresh read at 10 of 300 seconds returns the
cached field, performs no call and changes nothing. -/
theorem c4_witness :
    read_element c4St "/p" "k" 10 .none .none =
      ⟨dotted_getS "k" c4Sec.value, c4St, [], []⟩ :=
  c4_fresh_frame c4St "/p" "k" 10 0 .none .none c4Sec 300 rfl (by decide) rfl rfl rfl
    rfl rfl rfl rfl (by decide) (by decide)

/-- A renewable leased entry with a 3-second lease, no thread in flight. -/
def c2Sec : VaultSecret :=
  { path := "/p", value := .dict [("k", .str "v")], lease_time := some 0,
    lease_duration := .int 3, leased := true, renewable := .bool true }

def c2St : ClientState :=
  { vault_addr := "http://vault", vault_token := .str "t", authenticated := true,
    secrets := setSec (fun _ => Option.none) "/p" c2Sec }

/-- C2, counterexample: at elapsed = 2 with duration 3 the entry satisfies
2/3 * duration ≤ elapsed < duration and no thread is in flight, yet the read
launches no background task at all (and performs no call): the source's
near-expiry test is strict (elapsed > 2/3 * duration, and in doubles
float(2) > float(3) * (2.0/3.0) is 2.0 > 2.0, false), so the boundary point
stays in the serve-only branch. -/
theorem c2_cex :
    2 * 3 ≤ 3 * 2 ∧ 2 < 3 ∧ c2Sec.update_lock = false
    ∧ (read_element c2St "/p" "k" 2 .none .none).tasks = []
    ∧ (read_element c2St "/p" "k" 2 .none .none).calls = [] :=
  ⟨by decide, by decide, rfl, rfl, rfl⟩

/-- C2, amended: when the elapsed seconds as the source computes them
(modulo one day) are strictly above 2/3 of the (integer) lease duration and
strictly below it, and no thread is in flight, the cached value is served,
the in-flight flag is set, no synchronous call happens, and exactly one
background task is launched: a renew when the entry is renewable, a refetch
otherwise. -/
theorem c2_near_expiry (st : ClientState) (p key : String) (now lt : Nat)
    (lr fr : PyVal) (sec : VaultSecret) (d : Int)
    (hp : p.data.head? = some '/') (hk : key ≠ "")
    (hauth : st.authenticated = true)
    (htok : tokenStep st now lr = (st, Option.none, []))
    (hsec : st.secrets p = some sec)
    (hleased : sec.leased = true) (hlt : sec.lease_time = some lt)
    (hd : sec.lease_duration = .int d)
    (hlock : sec.update_lock = false)
    (hval : pyTruthy sec.value = true)
    (hlo : 2 * d < 3 * (((now - lt) % 86400 : Nat) : Int))
    (hhi : (((now - lt) % 86400 : Nat) : Int) < d) :
    read_element st p key now lr fr =
      ⟨dotted_getS key sec.value,
       { st with secrets := setSec st.secrets p ({ sec with update_lock := true }) },
       [],
       [if pyTruthy sec.renewable then BgTask.renew ({ sec with update_lock := true })
        else BgTask.update ({ sec with update_lock := true })]⟩ := by
  have hpne : p ≠ "" := by
    intro h; subst h; simp at hp
  have hcge : cmpGe ((now - lt) % 86400) ((d : Int) : ℚ) = false := by
    simp only [cmpGe, Rat.num_intCast, Rat.den_intCast, Nat.cast_one, mul_one,
      decide_eq_false_iff_not, not_le]
    omega
  have hc23 : cmpTwoThirds ((now - lt) % 86400) ((d : Int) : ℚ) = true := by
    simp only [cmpTwoThirds, Rat.num_intCast, Rat.den_intCast, Nat.cast_one, mul_one,
      decide_eq_true_eq]
    omega
  simp only [read_element, hpne, hk, or_self, if_false, normPath, hp, hauth, if_true,
    htok, hsec, Option.isSome_some, hleased, hlt, hd, hval, pyNumQ, hcge, hc23,
    hlock, Bool.not_true, List.nil_append, List.append_nil]
  cases hr : pyTruthy sec.renewable <;>
    simp [hr, finishRead, setSec, hval, hleased, hsec, hlt, hd, pyNumQ, hcge, hc23,
      hlock, hauth]

/-- A renewable near-expiry entry: elapsed 4 of 5 seconds. -/
def c2wSec : VaultSecret :=
  { path := "/p", value := .dict [("k", .str "v")], lease_time := some 0,
    lease_duration := .int 5, leased := true, renewable := .bool true }

def c2wSt : ClientState :=
  { vault_addr := "http://vault", vault_token := .str "t", authenticated := true,
    secrets := setSec (fun _ => Option.none) "/p" c2wSec }

/-- C2, witness: at elapsed 4 of 5 seconds (strictly past 2/3) the read
serves the cached field and launches exactly one renew task with the
in-flight flag set. -/
theorem c2_witness :
    read_element c2wSt "/p" "k" 4 .none .none =
      ⟨dotted_getS "k" c2wSec.value,
       { c2wSt with secrets := setSec c2wSt.secrets "/p" ({ c2wSec with update_lock := true }) },
       [],
       [if pyTruthy c2wSec.renewable then BgTask.renew ({ c2wSec with update_lock := true })
        else BgTask.update ({ c2wSec with update_lock := true })]⟩ :=
  c2_near_expiry c2wSt "/p" "k" 4 0 .none .none c2wSec 5 rfl (by decide) rfl rfl rfl
    rfl rfl rfl rfl rfl (by decide) (by decide)

/-- finishRead only reports, and never edits, the calls it is handed. -/
theorem finishRead_calls (st : ClientState) (p key : String) (cs : List NetCall)
    (ts : List BgTask) : (finishRead st p key cs ts).calls = cs := by
  unfold finishRead
  repeat' split
  all_goals rfl

/-- finishRead only reports, and never edits, the tasks it is handed. -/
theorem finishRead_tasks (st : ClientState) (p key : String) (cs : List NetCall)
    (ts : List BgTask) : (finishRead st p key cs ts).tasks = ts := by
  unfold finishRead
  repeat' split
  all_goals rfl

/-- A leased entry with a 300-second lease issued at time 0. -/
def c3Sec : VaultSecret :=
  { path := "/p", value := .dict [("k", .str "old")], lease_time := some 0,
    lease_duration := .int 300, leased := true }

def c3St : ClientState :=
  { vault_addr := "http://vault", vault_token := .str "t", authenticated := true,
    secrets := setSec (fun _ => Option.none) "/p" c3Sec }

/-- C3, counterexample: at elapsed 86401 seconds the 300-second lease is long
expired and no thread is in flight, yet the read performs no fetch at all and
serves the stale value, even though the backend would hand out a new one:
the source measures elapsed time with timedelta.seconds, which is the
elapsed time modulo one day, so 86401 seconds register as 1 second and the
entry is treated as fresh. -/
theorem c3_cex :
    (300 : Nat) ≤ 86401 ∧ c3Sec.update_lock = false
    ∧ read_element c3St "/p" "k" 86401 .none (.dict [("k", .str "new")]) =
        ⟨.ok (.str "old"), c3St, [], []⟩ :=
  ⟨by decide, rfl, rfl⟩

/-- C3, amended: when the elapsed seconds as the source computes them
(modulo one day) reach the (integer) lease duration and no thread is in
flight, the entry is refetched synchronously before the read returns --
exactly one blocking fetch call, no background task -- and whenever the
fetch yields a truthy response the entry's value is replaced by that
response before the result is produced; when the fetch fails (None
response) the untouched stale entry is what the read serves. -/
theorem c3_expired_sync (st : ClientState) (p key : String) (now lt : Nat)
    (lr fr : PyVal) (sec : VaultSecret) (d : Int)
    (hp : p.data.head? = some '/') (hk : key ≠ "")
    (hauth : st.authenticated = true)
    (htok : tokenStep st now lr = (st, Option.none, []))
    (hsec : st.secrets p = some sec)
    (hleased : sec.leased = true) (hlt : sec.lease_time = some lt)
    (hd : sec.lease_duration = .int d)
    (_hlock : sec.update_lock = false)
    (hexp : d ≤ (((now - lt) % 86400 : Nat) : Int)) :
    (read_element st p key now lr fr).calls = [NetCall.fetch p]
    ∧ (read_element st p key now lr fr).tasks = []
    ∧ (pyTruthy fr = true →
        (getSecret st.default_kvv2_ttl sec fr now).1.value = fr
        ∧ (getSecret st.default_kvv2_ttl sec fr now).1.leased = true)
    ∧ ((getSecret st.default_kvv2_ttl sec fr now).2 = Option.none →
        read_element st p key now lr fr =
          finishRead
            { st with
              secrets := setSec st.secrets p
                  ((getSecret st.default_kvv2_ttl sec fr now).1) }
            p key [NetCall.fetch p] []) := by
  have hpne : p ≠ "" := by intro h; subst h; simp at hp
  have hcge : cmpGe ((now - lt) % 86400) ((d : Int) : ℚ) = true := by
    simp only [cmpGe, Rat.num_intCast, Rat.den_intCast, Nat.cast_one, mul_one,
      decide_eq_true_eq]
    omega
  refine ⟨?_, ?_, fun ht => getSecret_value st.default_kvv2_ttl sec fr now ht, ?_⟩
  · simp only [read_element, hpne, hk, or_self, if_false, normPath, hp, hauth, if_true,
      htok, List.nil_append]
    rcases hg : getSecret st.default_kvv2_ttl sec fr now with ⟨sec', err⟩
    cases err <;>
      simp [hg, hsec, hleased, hlt, hd, pyNumQ, hcge, finishRead_calls]
  · simp only [read_element, hpne, hk, or_self, if_false, normPath, hp, hauth, if_true,
      htok, List.nil_append]
    rcases hg : getSecret st.default_kvv2_ttl sec fr now with ⟨sec', err⟩
    cases err <;>
      simp [hg, hsec, hleased, hlt, hd, pyNumQ, hcge, finishRead_tasks]
  · intro hnone
    simp only [read_element, hpne, hk, or_self, if_false, normPath, hp, hauth, if_true,
      htok, List.nil_append]
    rcases hg : getSecret st.default_kvv2_ttl sec fr now with ⟨sec', err⟩
    rw [hg] at hnone
    simp only at hnone
    subst hnone
    simp [hg, hsec, hleased, hlt, hd, pyNumQ, hcge, hauth]

/-- A fetch response carrying the refreshed document. -/
def c3wResp : PyVal :=
  .dict [("k", .str "new"), ("lease_duration", .int 60)]

/-- C3, witness: a concrete read at 301 of 300 seconds performs exactly one
synchronous fetch, launches nothing, and the fetched document replaces the
entry's value. -/
theorem c3_witness :
    (read_element c3St "/p" "k" 301 .none c3wResp).calls = [NetCall.fetch "/p"]
    ∧ (read_element c3St "/p" "k" 301 .none c3wResp).tasks = []
    ∧ (getSecret c3St.default_kvv2_ttl c3Sec c3wResp 301).1.value = c3wResp := by
  have h := c3_expired_sync c3St "/p" "k" 301 0 .none c3wResp c3Sec 300 rfl
    (by decide) rfl rfl rfl rfl rfl rfl rfl (by decide)
  exact ⟨h.1, h.2.1, (h.2.2.1 rfl).1⟩

/-- C10: a read of a non-empty path with no leading slash is
indistinguishable from a read of the same path with "/" prepended -- same
result, same state (one cache entry under the slash-prefixed key), same
calls and tasks. -/
theorem c10_norm (st : ClientState) (p key : String) (now : Nat) (lr fr : PyVal)
    (hne : p ≠ "") (hs : p.data.head? ≠ some '/') :
    read_element st p key now lr fr = read_element st ("/" ++ p) key now lr fr := by
  have hdata : ("/" ++ p).data = '/' :: p.data := by
    cases p with
    | mk l => rfl
  have hne2 : ("/" ++ p) ≠ "" := by
    intro h
    have h' := congrArg String.data h
    rw [hdata] at h'
    simp at h'
  have h1 : normPath p = "/" ++ p := by simp [normPath, hs]
  have h2 : normPath ("/" ++ p) = "/" ++ p := by simp [normPath, hdata]
  by_cases hkey : key = ""
  · simp [read_element, hkey]
  · have hc1 : (p = "" ∨ key = "") = False := by simp [hne, hkey]
    have hc2 : ("/" ++ p = "" ∨ key = "") = False := by simp [hne2, hkey]
    unfold read_element
    simp only [hc1, hc2, if_false, h1, h2]

/-- C10, witness: the two spellings of the same path give identical reads on
a concrete client. -/
theorem c10_witness :
    read_element c4St "p" "k" 10 .none .none =
      read_element c4St "/p" "k" 10 .none .none :=
  c10_norm c4St "p" "k" 10 .none .none (by decide) (by decide)

end VaultClient
